import Mathlib

/-!
# Verification of the sprig workspace-lifecycle CLI

A shallow embedding of `src/sprig/cli.py` (the whole implementation of the
`sprig` tool) together with proofs about the claims of its specification.

Modelling conventions:
* A filesystem path is a list of name components from the filesystem root
  (`AbsPath`); paths are taken as already resolved, so `Path.resolve` is the
  identity and `Path.relative_to` is list-prefix removal.
* The set of directories containing a `.git` marker is a list `gitDirs`;
  `(candidate / ".git").exists()` becomes membership in that list.
* The files the tool reads and writes are modelled explicitly: the root
  `.gitignore` as an `Option String` (`none` = absent) and each workspace
  directory's `config.yaml` / `README.md` as `Option String` fields.
* External subprocesses (git fetch, worktree add/remove, make setup) are out
  of scope per the spec; their outcomes enter the embedding as parameters
  (`GitEnv`, `ProcResult`), and CPython string/CLI semantics (`str.splitlines`,
  `str.strip`, falsiness of `""`/`None`, required `typer.Argument(...)`) are
  embedded directly.
-/

/-! Section: Python string helpers used by `cli.py` -/

/-- Python `str.splitlines` restricted to the `'\n'` separator (the only line
separator `cli.py` ever writes): split at each newline, with no trailing empty
line for content that ends in a newline. -/
def splitlinesAux : List Char → List Char → List String
  | [], acc => if acc.isEmpty then [] else [String.mk acc.reverse]
  | c :: rest, acc =>
      if c = '\n' then String.mk acc.reverse :: splitlinesAux rest []
      else splitlinesAux rest (c :: acc)

def splitlines (s : String) : List String :=
  splitlinesAux s.data []

/-- Python whitespace characters relevant to `str.strip` (ASCII). -/
def isPySpace (c : Char) : Bool :=
  c = ' ' || c = '\t' || c = '\n' || c = '\r' || c = '\x0b' || c = '\x0c'

/-- Python `str.strip()`: drop leading and trailing whitespace. -/
def pystrip (s : String) : String :=
  String.mk (((s.data.dropWhile isPySpace).reverse.dropWhile isPySpace).reverse)

/-- Python `str.endswith("\n")`. -/
def endswithNewline (s : String) : Bool :=
  s.data.getLast? = some '\n'

/-! Section: Constants from `cli.py` -/

def WORKSPACES_DIR : String := ".workspaces"

def DEFAULT_BRANCH : String := "main"

/-! Section: `ensure_gitignore` (cli.py lines 133-142)

The function reads `<root>/.gitignore` (if present) and writes it back; we
embed it as a function from the old content (`none` when the file is absent)
to the new content (the file always exists afterwards). -/

def gitignoreEntry : String := WORKSPACES_DIR ++ "/"

def ensure_gitignore (old : Option String) : String :=
  match old with
  | some content =>
      if gitignoreEntry ∈ (splitlines content).map pystrip then
        content
      else
        content ++ (if endswithNewline content then "" else "\n") ++ gitignoreEntry ++ "\n"
  | none => gitignoreEntry ++ "\n"

/-! Section: Workspace directories and `scaffold_config` (cli.py lines 145-174) -/

/-- The files of one workspace directory that `cli.py` itself reads or
writes. `none` means the file does not exist. -/
structure Workspace where
  config : Option String
  readme : Option String
  deriving DecidableEq, Repr

def emptyWorkspace : Workspace := { config := none, readme := none }

/-- Content written to a fresh `config.yaml`:
`"\n".join([...])` from cli.py lines 150-161. -/
def configText : String :=
  "# sprig workspace config\nagent: \"\"\nnotes: \"\"\npaths: []\nenv_file: \"\"\n"

/-- Content written to a fresh `README.md` (cli.py lines 165-174); depends on
the workspace directory's name. -/
def readmeText (name : String) : String :=
  "# Workspace `" ++ name ++ "`\n\nThis directory is meant for agent-driven changes. Keep human notes in `config.yaml`.\n"

/-- Embeds `scaffold_config(workspace_dir)`: return immediately when `config.yaml`
exists; otherwise write it, then write `README.md` only when absent. -/
def scaffold_config (name : String) (ws : Workspace) : Workspace :=
  match ws.config with
  | some _ => ws
  | none =>
      let ws1 : Workspace := { ws with config := some configText }
      match ws1.readme with
      | some _ => ws1
      | none => { ws1 with readme := some (readmeText name) }

/-! Section: Paths, repo-root discovery and context detection (cli.py lines 61-103) -/

/-- An absolute, resolved path: its name components from the filesystem root. -/
abbrev AbsPath := List String

/-- Embeds `find_repo_root`: it walks `(start, *start.parents)` and returns the first
candidate containing `.git`. We recurse on the reversed component list so the
walk from `cwd` up to the filesystem root is structural. -/
def findRootRev (gitDirs : List AbsPath) : List String → Option AbsPath
  | [] => if [] ∈ gitDirs then some [] else none
  | c :: rest =>
      if (c :: rest).reverse ∈ gitDirs then some ((c :: rest).reverse)
      else findRootRev gitDirs rest

def find_repo_root (gitDirs : List AbsPath) (start : AbsPath) : Option AbsPath :=
  findRootRev gitDirs start.reverse

/-- Embeds `detect_workspace(cwd, root)`: `cwd.relative_to(root)` succeeds exactly
when `root` is a prefix of `cwd`; the workspace name is the second component
of the relative path when the first is `.workspaces`. -/
def detect_workspace (cwd root : AbsPath) : Option String :=
  if root.isPrefixOf cwd then
    match cwd.drop root.length with
    | d0 :: d1 :: _ => if d0 = WORKSPACES_DIR then some d1 else none
    | _ => none
  else none

/-- The user-facing error conditions (`SprigError` messages) raised by
`cli.py`, one constructor per distinct message site. -/
inductive SprigError where
  | notARepository
  | wrongContextInsideWorkspace
  | wrongContextNotRoot (root : AbsPath)
  | wrongContextOutsideWorkspace
  | alreadyExists (name : String)
  | branchAlreadyExists (branch : String)
  | notFound (name : String) (dir : AbsPath)
  | gitPullFailed (branch : String)
  | worktreeRemoveFailed
  | worktreeAddFailed
  | makeSetupFailed
  deriving DecidableEq, Repr

/-- The spec's error taxonomy classifies `WrongContext` as the condition for
"command run from the wrong location relative to root/workspace"; these are
the messages raised at cli.py lines 86, 89 and 101. -/
def SprigError.isWrongContext : SprigError → Bool
  | .wrongContextInsideWorkspace => true
  | .wrongContextNotRoot _ => true
  | .wrongContextOutsideWorkspace => true
  | _ => false

/-- Embeds `ensure_root_command(cwd)` (cli.py lines 80-91). -/
def ensure_root_command (gitDirs : List AbsPath) (cwd : AbsPath) :
    Except SprigError AbsPath :=
  match find_repo_root gitDirs cwd with
  | none => .error .notARepository
  | some root =>
      if (detect_workspace cwd root).isSome then
        .error .wrongContextInsideWorkspace
      else if cwd ≠ root then
        .error (.wrongContextNotRoot root)
      else
        .ok root

/-- Embeds `ensure_workspace_command(cwd)` (cli.py lines 94-103). `if not workspace`
is Python falsiness of `Optional[str]`; path components are never empty
strings, so it is emptiness of the option. -/
def ensure_workspace_command (gitDirs : List AbsPath) (cwd : AbsPath) :
    Except SprigError (AbsPath × String) :=
  match find_repo_root gitDirs cwd with
  | none => .error .notARepository
  | some root =>
      match detect_workspace cwd root with
      | none => .error .wrongContextOutsideWorkspace
      | some workspace => .ok (root, workspace)

/-! Section: The repository filesystem touched by the commands -/

/-- An entry directly under `<root>/.workspaces`: a workspace directory, or a
plain file (which `list` must skip via `p.is_dir()`). -/
inductive WsEntry where
  | dir (w : Workspace)
  | file
  deriving DecidableEq, Repr

def WsEntry.isDir : WsEntry → Bool
  | .dir _ => true
  | .file => false

/-- The files and directories under the repository root that `cli.py` reads or
writes: `.gitignore` content and the `.workspaces` directory (`none` when the
directory itself does not exist), as an association list keyed by entry name. -/
structure RepoFS where
  gitignore : Option String
  workspaces : Option (List (String × WsEntry))
  deriving DecidableEq, Repr

/-- Well-formed directory listing: entry names are distinct. -/
abbrev RepoFS.wf (fs : RepoFS) : Prop :=
  ((fs.workspaces.getD []).map Prod.fst).Nodup

/-- Embeds `(root / WORKSPACES_DIR / name).exists()` and the lookup of that entry. -/
def lookupWs (fs : RepoFS) (name : String) : Option WsEntry :=
  match fs.workspaces with
  | some l => (l.find? (fun p => p.1 = name)).map Prod.snd
  | none => none

/-- Embeds `shutil.rmtree(workspace_dir)`. -/
def removeWs (fs : RepoFS) (name : String) : RepoFS :=
  { fs with workspaces := fs.workspaces.map (fun l => l.filter (fun p => p.1 ≠ name)) }

/-- Create / overwrite the entry `name` (e.g. `mkdir(parents=True)` or a git
worktree checkout materializing there). -/
def putWs (fs : RepoFS) (name : String) (e : WsEntry) : RepoFS :=
  { fs with
    workspaces :=
      some ((fs.workspaces.getD []).filter (fun p => p.1 ≠ name) ++ [(name, e)]) }

/-- Apply `scaffold_config` to the workspace directory `name` (no-op on a
non-directory entry; `cli.py` would fail on one, but every call site has just
materialized a directory there). -/
def scaffoldWs (fs : RepoFS) (name : String) : RepoFS :=
  { fs with
    workspaces :=
      fs.workspaces.map (fun l =>
        l.map (fun p =>
          if p.1 = name then
            match p.2 with
            | .dir w => (p.1, .dir (scaffold_config name w))
            | .file => p
          else p)) }

/-! Section: Exit status of a command invocation

`handle_cli_errors` (cli.py lines 45-54) turns a `SprigError` into one
`Error: ...` line and `typer.Exit(code=1)`; declining the `clean` confirmation
raises `typer.Exit(code=0)`. -/

inductive CmdExit where
  | success
  | aborted
  | failure (e : SprigError)
  deriving DecidableEq, Repr

def CmdExit.code : CmdExit → Nat
  | .success => 0
  | .aborted => 0
  | .failure _ => 1

/-! Section: `init` (cli.py lines 212-221) -/

def init_cmd (gitDirs : List AbsPath) (cwd : AbsPath) (fs : RepoFS) :
    CmdExit × RepoFS :=
  match ensure_root_command gitDirs cwd with
  | .error e => (.failure e, fs)
  | .ok _root => (.success, { fs with gitignore := some (ensure_gitignore fs.gitignore) })

/-! Section: `list` (cli.py lines 259-276) -/

def noWorkspacesMsg : String := "No workspaces yet."

def list_cmd (gitDirs : List AbsPath) (cwd : AbsPath) (fs : RepoFS) :
    CmdExit × List String × RepoFS :=
  match ensure_root_command gitDirs cwd with
  | .error e => (.failure e, [], fs)
  | .ok _root =>
      match fs.workspaces with
      | none => (.success, [noWorkspacesMsg], fs)
      | some l =>
          let names := (l.filter (fun p => p.2.isDir)).map Prod.fst
          let sortedNames := names.mergeSort
          if sortedNames.isEmpty then (.success, [noWorkspacesMsg], fs)
          else (.success, sortedNames, fs)

/-! Section: `clean` (cli.py lines 279-298)

`confirmAnswer` is the user's reply to `typer.confirm` (consulted only when
`--yes` is not given). -/

def clean_cmd (gitDirs : List AbsPath) (cwd : AbsPath) (name : String)
    (yes confirmAnswer : Bool) (fs : RepoFS) : CmdExit × RepoFS :=
  match ensure_root_command gitDirs cwd with
  | .error e => (.failure e, fs)
  | .ok root =>
      if (lookupWs fs name).isNone then
        (.failure (.notFound name (root ++ [WORKSPACES_DIR, name])), fs)
      else if ¬ yes ∧ ¬ confirmAnswer then
        (.aborted, fs)
      else
        (.success, removeWs fs name)

/-! Section: Workspace creation (`_create_workspace`, cli.py lines 224-256)

External effects are parametrized by `GitEnv`: outcomes of `git fetch`,
`git rev-parse --verify` (does the workspace branch already exist), worktree
removal/creation (and the checkout the latter materializes), and `make setup`.
-/

structure GitEnv where
  fetchOk : Bool
  branchTaken : Bool
  worktreeRemoveOk : Bool
  worktreeAddOk : Bool
  checkout : Workspace
  makefileExists : Bool
  makeOk : Bool
  deriving DecidableEq, Repr

/-- Embeds `prepare_directory_only(workspace_dir, force)` (cli.py lines 354-359). -/
def prepare_directory_only (name : String) (force : Bool) (fs : RepoFS) :
    Except SprigError RepoFS :=
  match lookupWs fs name with
  | some _ =>
      if force then .ok (putWs fs name (.dir emptyWorkspace))
      else .error (.alreadyExists name)
  | none => .ok (putWs fs name (.dir emptyWorkspace))

/-- Embeds `create_git_worktree(...)` (cli.py lines 374-397): remove a pre-existing
checkout / branch only under `--force`, then `git worktree add`, which
materializes `env.checkout` in the workspace directory. -/
def create_git_worktree (name : String) (force : Bool) (env : GitEnv)
    (fs : RepoFS) : Except SprigError RepoFS :=
  match lookupWs fs name with
  | some _ =>
      if ¬ force then .error (.alreadyExists name)
      else if ¬ env.worktreeRemoveOk then .error .worktreeRemoveFailed
      else if env.branchTaken then
        if env.worktreeAddOk then .ok (putWs (removeWs fs name) name (.dir env.checkout))
        else .error .worktreeAddFailed
      else
        if env.worktreeAddOk then .ok (putWs (removeWs fs name) name (.dir env.checkout))
        else .error .worktreeAddFailed
  | none =>
      if env.branchTaken ∧ ¬ force then .error (.branchAlreadyExists name)
      else if env.worktreeAddOk then .ok (putWs fs name (.dir env.checkout))
      else .error .worktreeAddFailed

def _create_workspace (gitDirs : List AbsPath) (cwd : AbsPath) (name : String)
    (targetBranch : String) (skipGit skipSetup force : Bool) (env : GitEnv)
    (fs : RepoFS) : CmdExit × RepoFS :=
  match ensure_root_command gitDirs cwd with
  | .error e => (.failure e, fs)
  | .ok _root =>
      let prepared : Except SprigError RepoFS :=
        if skipGit then prepare_directory_only name force fs
        else if ¬ env.fetchOk then .error (.gitPullFailed targetBranch)
        else create_git_worktree name force env fs
      match prepared with
      | .error e => (.failure e, fs)
      | .ok fs1 =>
          let fs2 := scaffoldWs fs1 name
          let fs3 := { fs2 with gitignore := some (ensure_gitignore fs2.gitignore) }
          if skipSetup then (.success, fs3)
          else if ¬ env.makefileExists then (.success, fs3)
          else if env.makeOk then (.success, fs3)
          else (.failure .makeSetupFailed, fs3)

/-! Section: The `new` CLI command (cli.py lines 196-209)

`name: str = typer.Argument(..., help="Workspace name.")` declares the name
argument with the `...` (required) sentinel: there is no default value. -/

/-- Default value of the `name` argument of `new`: the `...` sentinel, i.e.
no default. -/
def newNameDefault : Option String := none

/-- Outcome of invoking `new` through the CLI dispatcher: a usage error from
the argument parser (missing required argument, command body never runs), or
the command body's result. -/
inductive CliOutcome where
  | usageError
  | ran (result : CmdExit × RepoFS)
  deriving DecidableEq, Repr

def new_cmd (gitDirs : List AbsPath) (cwd : AbsPath) (nameArg : Option String)
    (targetBranch : String) (skipGit skipSetup force : Bool) (env : GitEnv)
    (fs : RepoFS) : CliOutcome :=
  match nameArg.orElse (fun _ => newNameDefault) with
  | none => .usageError
  | some name =>
      .ran (_create_workspace gitDirs cwd name targetBranch skipGit skipSetup force env fs)

/-! Section: `branch status` and `branch clean` (cli.py lines 301-341)

Both `subprocess.run` calls use `check=False`, so they return a completed
process whatever the exit code; `ProcResult` carries that outcome. -/

structure ProcResult where
  stdout : String
  returncode : Int
  deriving DecidableEq, Repr

def showPath (p : AbsPath) : String := "/" ++ String.intercalate "/" p

def branch_status_cmd (gitDirs : List AbsPath) (cwd : AbsPath)
    (branchProc statusProc : ProcResult) : CmdExit × List String :=
  match ensure_workspace_command gitDirs cwd with
  | .error e => (.failure e, [])
  | .ok (root, workspace) =>
      let branchName := pystrip branchProc.stdout
      let status := pystrip statusProc.stdout
      (.success,
        [ "Repo root: " ++ showPath root,
          "Workspace: " ++ workspace,
          "Git branch: " ++ (if branchName = "" then "unknown" else branchName),
          "Git status:",
          if status = "" then "  clean" else status ])

def branch_clean_cmd (gitDirs : List AbsPath) (cwd : AbsPath) :
    CmdExit × List String :=
  match ensure_workspace_command gitDirs cwd with
  | .error e => (.failure e, [])
  | .ok (root, workspace) =>
      (.success,
        [ "You are inside .workspaces/" ++ workspace ++ ".",
          "Run `cd " ++ showPath root ++ "` then `sprig clean " ++ workspace
            ++ "` to remove this workspace." ])

/-! Section: Helper lemmas about line splitting -/

theorem string_data_append (s t : String) : (s ++ t).data = s.data ++ t.data := rfl

theorem splitlinesAux_append_newline (xs ys acc : List Char) :
    splitlinesAux (xs ++ '\n' :: ys) acc
      = splitlinesAux (xs ++ ['\n']) acc ++ splitlinesAux ys [] := by
  induction xs generalizing acc with
  | nil => simp [splitlinesAux]
  | cons c xs ih =>
      by_cases hc : c = '\n'
      · subst hc
        simp [splitlinesAux, ih]
      · simp [splitlinesAux, hc, ih]

theorem splitlines_entry_block :
    splitlinesAux (gitignoreEntry ++ "\n").data [] = [gitignoreEntry] := by decide

/-- After appending the ignore entry the way `ensure_gitignore` does, the entry
is one of the (stripped) lines of the new content. -/
theorem gitignoreEntry_mem_appended (c : String) :
    gitignoreEntry ∈
      (splitlines
        (c ++ (if endswithNewline c then "" else "\n") ++ gitignoreEntry ++ "\n")).map
        pystrip := by
  by_cases h : endswithNewline c
  · have hlast : c.data.getLast? = some '\n' := of_decide_eq_true h
    obtain ⟨init, hinit⟩ := List.getLast?_eq_some_iff.mp hlast
    have hdata2 :
        (c ++ (if endswithNewline c then "" else "\n") ++ gitignoreEntry ++ "\n").data
          = init ++ '\n' :: (gitignoreEntry ++ "\n").data := by
      rw [if_pos h]
      have h1 : (c ++ "" ++ gitignoreEntry ++ "\n").data
          = ((c.data ++ ([] : List Char)) ++ gitignoreEntry.data) ++ ['\n'] := rfl
      rw [h1, hinit]
      simp [string_data_append]
    unfold splitlines
    rw [hdata2, splitlinesAux_append_newline, splitlines_entry_block]
    simp
    exact Or.inr (by decide)
  · have hdata2 :
        (c ++ (if endswithNewline c then "" else "\n") ++ gitignoreEntry ++ "\n").data
          = c.data ++ '\n' :: (gitignoreEntry ++ "\n").data := by
      rw [if_neg h]
      have h1 : (c ++ "\n" ++ gitignoreEntry ++ "\n").data
          = ((c.data ++ ['\n']) ++ gitignoreEntry.data) ++ ['\n'] := rfl
      rw [h1]
      simp [string_data_append]
    unfold splitlines
    rw [hdata2, splitlinesAux_append_newline, splitlines_entry_block]
    simp
    exact Or.inr (by decide)

/-- Reduction of `ensure_gitignore` when the entry is already a stripped line. -/
theorem ensure_gitignore_of_mem (s : String)
    (h : gitignoreEntry ∈ (splitlines s).map pystrip) :
    ensure_gitignore (some s) = s := by
  show (if gitignoreEntry ∈ (splitlines s).map pystrip then s
        else s ++ (if endswithNewline s then "" else "\n") ++ gitignoreEntry ++ "\n") = s
  rw [if_pos h]

/-- Reduction of `ensure_gitignore` when the entry is not yet a stripped line. -/
theorem ensure_gitignore_of_not_mem (s : String)
    (h : gitignoreEntry ∉ (splitlines s).map pystrip) :
    ensure_gitignore (some s)
      = s ++ (if endswithNewline s then "" else "\n") ++ gitignoreEntry ++ "\n" := by
  show (if gitignoreEntry ∈ (splitlines s).map pystrip then s
        else s ++ (if endswithNewline s then "" else "\n") ++ gitignoreEntry ++ "\n")
      = s ++ (if endswithNewline s then "" else "\n") ++ gitignoreEntry ++ "\n"
  rw [if_neg h]

/-! Section: Claims about scaffolding (C2, C10) -/

def sampleWs : Workspace := { config := some "keep", readme := some "keepme" }

def sampleEnv : GitEnv :=
  { fetchOk := true, branchTaken := false, worktreeRemoveOk := true,
    worktreeAddOk := true, checkout := emptyWorkspace,
    makefileExists := false, makeOk := true }

def sampleFS : RepoFS :=
  { gitignore := none, workspaces := some [("demo", .dir sampleWs)] }

/-- C2: scaffolding is idempotent. If `config.yaml` exists, scaffolding leaves
the workspace unchanged (so its content is preserved); if `README.md` exists,
its content is preserved; scaffolding twice equals scaffolding once; and
running create a second time without force over an existing workspace leaves
the whole filesystem unchanged (so no config or README is overwritten). -/
theorem scaffolding_idempotent (name : String) (ws : Workspace) :
    (∀ c, ws.config = some c → scaffold_config name ws = ws) ∧
    (∀ r, ws.readme = some r → (scaffold_config name ws).readme = some r) ∧
    scaffold_config name (scaffold_config name ws) = scaffold_config name ws ∧
    (∀ gitDirs cwd targetBranch skipGit skipSetup env fs,
        (lookupWs fs name).isSome →
        (_create_workspace gitDirs cwd name targetBranch skipGit skipSetup false env fs).2
          = fs) := by
  refine ⟨?_, ?_, ?_, ?_⟩
  · intro c hc
    simp [scaffold_config, hc]
  · intro r hr
    cases hc : ws.config <;> simp [scaffold_config, hc, hr]
  · cases hc : ws.config with
    | some c => simp [scaffold_config, hc]
    | none => cases hr : ws.readme <;> simp [scaffold_config, hc, hr]
  · intro gitDirs cwd targetBranch skipGit skipSetup env fs h
    obtain ⟨entry, he⟩ := Option.isSome_iff_exists.mp h
    unfold _create_workspace
    cases hroot : ensure_root_command gitDirs cwd with
    | error e => rfl
    | ok root =>
        cases skipGit with
        | true => simp [prepare_directory_only, he]
        | false =>
            cases hf : env.fetchOk with
            | false => simp [hf]
            | true => simp [hf, create_git_worktree, he]

theorem scaffolding_idempotent_witness :
    scaffold_config "demo" sampleWs = sampleWs ∧
    (_create_workspace [["repo"]] ["repo"] "demo" "main" true true false sampleEnv
        sampleFS).2 = sampleFS :=
  ⟨(scaffolding_idempotent "demo" sampleWs).1 "keep" rfl,
   (scaffolding_idempotent "demo" sampleWs).2.2.2 [["repo"]] ["repo"] "main" true true
     sampleEnv sampleFS (by decide)⟩

/-- C10: when `config.yaml` already exists, `scaffold_config` returns
immediately, so the workspace (in particular a missing `README.md`) is left
exactly as it was; and whenever the call changes `README.md`, the same call
created `config.yaml` (the config was absent and is now the scaffold text). -/
theorem scaffold_config_early_return (name : String) (ws : Workspace) :
    (ws.config.isSome → scaffold_config name ws = ws) ∧
    ((scaffold_config name ws).readme ≠ ws.readme →
      ws.config = none ∧ ws.readme = none ∧
      (scaffold_config name ws).config = some configText ∧
      (scaffold_config name ws).readme = some (readmeText name)) := by
  constructor
  · intro h
    obtain ⟨c, hc⟩ := Option.isSome_iff_exists.mp h
    simp [scaffold_config, hc]
  · intro h
    cases hc : ws.config with
    | some c => simp [scaffold_config, hc] at h
    | none =>
        cases hr : ws.readme with
        | some r => simp [scaffold_config, hc, hr] at h
        | none => simp [scaffold_config, hc, hr]

theorem scaffold_config_early_return_witness :
    scaffold_config "demo" { config := some "c", readme := none }
      = { config := some "c", readme := none } :=
  (scaffold_config_early_return "demo" _).1 (by decide)

/-! Section: Claim about the gitignore entry (C3) -/

/-- C3 (counterexample): for the pre-existing content consisting of the entry
line twice, the operation leaves the file unchanged, so afterwards the file
does not contain the entry exactly once as a line; and for the pre-existing
content consisting of the entry without a final newline, the operation also
returns early, so no trailing newline is ensured. -/
theorem ensure_gitignore_exactly_once_cex :
    ¬ ((splitlines (ensure_gitignore (some ".workspaces/\n.workspaces/\n"))).count
        ".workspaces/" = 1) ∧
    ¬ (endswithNewline (ensure_gitignore (some ".workspaces/")) = true) := by
  constructor <;> decide

/-- C3 (amended): the operation is idempotent and ensures the entry appears at
least once among the whitespace-stripped lines; pre-existing content is
preserved verbatim (unchanged when the entry was already present as a stripped
line, and otherwise kept as a prefix with a separating newline added only when
the content lacked a trailing one, followed by the appended entry line); an
absent file is created containing exactly the entry line. -/
theorem ensure_gitignore_amended (old : Option String) :
    gitignoreEntry ∈ (splitlines (ensure_gitignore old)).map pystrip ∧
    ensure_gitignore (some (ensure_gitignore old)) = ensure_gitignore old ∧
    (∀ c, old = some c →
      (gitignoreEntry ∈ (splitlines c).map pystrip → ensure_gitignore old = c) ∧
      (gitignoreEntry ∉ (splitlines c).map pystrip →
        ensure_gitignore old
          = c ++ (if endswithNewline c then "" else "\n") ++ gitignoreEntry ++ "\n")) ∧
    (old = none → ensure_gitignore old = gitignoreEntry ++ "\n") := by
  have hmem : gitignoreEntry ∈ (splitlines (ensure_gitignore old)).map pystrip := by
    cases old with
    | none => decide
    | some c =>
        by_cases h : gitignoreEntry ∈ (splitlines c).map pystrip
        · rw [ensure_gitignore_of_mem c h]
          exact h
        · rw [ensure_gitignore_of_not_mem c h]
          exact gitignoreEntry_mem_appended c
  refine ⟨hmem, ensure_gitignore_of_mem _ hmem, ?_, ?_⟩
  · intro c hc
    subst hc
    exact ⟨ensure_gitignore_of_mem c, ensure_gitignore_of_not_mem c⟩
  · intro h
    subst h
    rfl

theorem ensure_gitignore_amended_witness :
    ensure_gitignore (some (ensure_gitignore (some "node_modules/"))) =
      ensure_gitignore (some "node_modules/") :=
  (ensure_gitignore_amended (some "node_modules/")).2.1

/-! Section: Claim about root-only command gating (C4) -/

/-- C4: from a current directory that is inside a detected workspace, or that
is inside the repository but is not the root itself, every root-only command
(`new`, `init`, `list`, `clean`) fails with a `WrongContext` error and leaves
the filesystem unchanged, i.e. no state mutation is performed. -/
theorem root_only_commands_wrong_context (gitDirs : List AbsPath) (cwd root : AbsPath)
    (hroot : find_repo_root gitDirs cwd = some root)
    (hctx : detect_workspace cwd root ≠ none ∨ cwd ≠ root) :
    ∃ e : SprigError, e.isWrongContext = true ∧
      (∀ nameArg targetBranch skipGit skipSetup force env fs,
        new_cmd gitDirs cwd (some nameArg) targetBranch skipGit skipSetup force env fs
          = .ran (.failure e, fs)) ∧
      (∀ fs, init_cmd gitDirs cwd fs = (.failure e, fs)) ∧
      (∀ fs, list_cmd gitDirs cwd fs = (.failure e, [], fs)) ∧
      (∀ name yes confirmAnswer fs,
        clean_cmd gitDirs cwd name yes confirmAnswer fs = (.failure e, fs)) := by
  have herr : ∃ e : SprigError, e.isWrongContext = true ∧
      ensure_root_command gitDirs cwd = .error e := by
    unfold ensure_root_command
    rw [hroot]
    by_cases hd : (detect_workspace cwd root).isSome
    · exact ⟨.wrongContextInsideWorkspace, rfl, by simp [hd]⟩
    · have hcwd : cwd ≠ root := by
        cases hctx with
        | inl h =>
            exfalso
            exact hd (Option.isSome_iff_ne_none.mpr h)
        | inr h => exact h
      exact ⟨.wrongContextNotRoot root, rfl, by simp [hd, hcwd]⟩
  obtain ⟨e, hwc, he⟩ := herr
  refine ⟨e, hwc, ?_, ?_, ?_, ?_⟩ <;> intros <;>
    simp [new_cmd, _create_workspace, init_cmd, list_cmd, clean_cmd, he]

theorem root_only_commands_wrong_context_witness :
    ∃ e : SprigError, e.isWrongContext = true ∧
      init_cmd [["repo"]] ["repo", ".workspaces", "demo"]
          { gitignore := none, workspaces := none }
        = (.failure e, { gitignore := none, workspaces := none }) := by
  obtain ⟨e, hwc, -, hinit, -, -⟩ :=
    root_only_commands_wrong_context [["repo"]] ["repo", ".workspaces", "demo"] ["repo"]
      (by decide) (Or.inl (by decide))
  exact ⟨e, hwc, hinit _⟩

/-! Section: Claim about the name argument of `new` (C1) -/

def fs0 : RepoFS := { gitignore := none, workspaces := none }

/-- C1 (counterexample): with the repository root directory named `repo` and
`new` invoked from that root, omitting the name argument yields a usage error
from the argument parser and does not behave like supplying the root
directory's own name: no defaulting takes place. -/
theorem new_name_not_defaulted_cex :
    new_cmd [["repo"]] ["repo"] none "main" true true false sampleEnv fs0 = .usageError ∧
    new_cmd [["repo"]] ["repo"] none "main" true true false sampleEnv fs0
      ≠ new_cmd [["repo"]] ["repo"] (some "repo") "main" true true false sampleEnv fs0 := by
  exact ⟨rfl, by decide⟩

/-- C1 (amended): the workspace name argument of `new` is required: omitting
it is a usage error of the argument parser (the command body never runs), and
supplying a name runs workspace creation with exactly that name. -/
theorem new_name_required (gitDirs : List AbsPath) (cwd : AbsPath)
    (targetBranch : String) (skipGit skipSetup force : Bool) (env : GitEnv) (fs : RepoFS) :
    new_cmd gitDirs cwd none targetBranch skipGit skipSetup force env fs = .usageError ∧
    (∀ name, new_cmd gitDirs cwd (some name) targetBranch skipGit skipSetup force env fs
      = .ran (_create_workspace gitDirs cwd name targetBranch skipGit skipSetup force env fs)) :=
  ⟨rfl, fun _ => rfl⟩

/-! Section: Claims about `clean` (C5, C7) -/

/-- C5: run from the repository root, `clean` on a workspace name whose
directory does not exist under `.workspaces` fails with the `NotFound` error,
exits nonzero, and performs no filesystem mutation. -/
theorem clean_missing_not_found (gitDirs : List AbsPath) (cwd root : AbsPath)
    (name : String) (yes confirmAnswer : Bool) (fs : RepoFS)
    (hroot : ensure_root_command gitDirs cwd = .ok root)
    (hmiss : lookupWs fs name = none) :
    clean_cmd gitDirs cwd name yes confirmAnswer fs
        = (.failure (.notFound name (root ++ [WORKSPACES_DIR, name])), fs) ∧
    (clean_cmd gitDirs cwd name yes confirmAnswer fs).1.code = 1 ∧
    (clean_cmd gitDirs cwd name yes confirmAnswer fs).2 = fs := by
  have h : clean_cmd gitDirs cwd name yes confirmAnswer fs
      = (.failure (.notFound name (root ++ [WORKSPACES_DIR, name])), fs) := by
    unfold clean_cmd
    rw [hroot]
    simp [hmiss]
  refine ⟨h, ?_, ?_⟩ <;> simp [h, CmdExit.code]

theorem clean_missing_not_found_witness :
    clean_cmd [["repo"]] ["repo"] "ghost" false false fs0
      = (.failure (.notFound "ghost" (["repo"] ++ [WORKSPACES_DIR, "ghost"])), fs0) :=
  (clean_missing_not_found [["repo"]] ["repo"] ["repo"] "ghost" false false fs0 rfl rfl).1

/-- C7: run from the root on an existing workspace without the
skip-confirmation flag, declining the interactive prompt aborts with exit code
zero and leaves the filesystem, hence the workspace directory and its
contents, unchanged. -/
theorem clean_decline_aborts (gitDirs : List AbsPath) (cwd root : AbsPath)
    (name : String) (fs : RepoFS)
    (hroot : ensure_root_command gitDirs cwd = .ok root)
    (hexists : (lookupWs fs name).isSome) :
    clean_cmd gitDirs cwd name false false fs = (.aborted, fs) ∧
    (clean_cmd gitDirs cwd name false false fs).1.code = 0 := by
  obtain ⟨v, hv⟩ := Option.isSome_iff_exists.mp hexists
  have h : clean_cmd gitDirs cwd name false false fs = (.aborted, fs) := by
    unfold clean_cmd
    rw [hroot]
    simp [hv]
  exact ⟨h, by rw [h]; rfl⟩

theorem clean_decline_aborts_witness :
    clean_cmd [["repo"]] ["repo"] "demo" false false sampleFS = (.aborted, sampleFS) :=
  (clean_decline_aborts [["repo"]] ["repo"] ["repo"] "demo" sampleFS rfl (by decide)).1

/-! Section: Claim about `branch status` (C6) -/

/-- C6 (counterexample): inside a workspace, when the status query produces no
output, the printed status-summary line is the two-space-indented `"  clean"`,
not the bare string `"clean"`. -/
theorem branch_status_clean_cex :
    (branch_status_cmd [["repo"]] ["repo", ".workspaces", "demo"]
        { stdout := "main\n", returncode := 0 }
        { stdout := "", returncode := 0 }).2.getLast? ≠ some "clean" ∧
    (branch_status_cmd [["repo"]] ["repo", ".workspaces", "demo"]
        { stdout := "main\n", returncode := 0 }
        { stdout := "", returncode := 0 }).2.getLast? = some "  clean" := by
  constructor <;> decide

/-- C6 (amended): inside a workspace, `branch status` never raises while
determining the branch: for every outcome of the two subprocess queries the
command succeeds, it prints "unknown" in place of the branch when the stripped
branch output is empty, and when the stripped status output is empty it prints
the word "clean" indented by two spaces (the literal line `"  clean"`) as the
status summary. -/
theorem branch_status_amended (gitDirs : List AbsPath) (cwd root : AbsPath)
    (workspace : String) (branchProc statusProc : ProcResult)
    (h : ensure_workspace_command gitDirs cwd = .ok (root, workspace)) :
    (branch_status_cmd gitDirs cwd branchProc statusProc).1 = .success ∧
    (branch_status_cmd gitDirs cwd branchProc statusProc).2
      = [ "Repo root: " ++ showPath root,
          "Workspace: " ++ workspace,
          "Git branch: " ++ (if pystrip branchProc.stdout = "" then "unknown"
                             else pystrip branchProc.stdout),
          "Git status:",
          if pystrip statusProc.stdout = "" then "  clean"
          else pystrip statusProc.stdout ] := by
  unfold branch_status_cmd
  rw [h]
  exact ⟨rfl, rfl⟩

theorem branch_status_amended_witness :
    (branch_status_cmd [["repo"]] ["repo", ".workspaces", "demo"]
        { stdout := "", returncode := 1 }
        { stdout := " M x.txt\n", returncode := 0 }).1 = .success :=
  (branch_status_amended [["repo"]] ["repo", ".workspaces", "demo"] ["repo"] "demo"
      { stdout := "", returncode := 1 } { stdout := " M x.txt\n", returncode := 0 } rfl).1

/-! Section: Claim about workspace-only command gating (C8) -/

/-- C8 (counterexample): from a directory outside any repository, the
workspace-only command `branch status` does fail, but with the
`NotARepository` error, which is not a `WrongContext` error. -/
theorem workspace_only_outside_repo_cex :
    (branch_status_cmd [] ["home"] { stdout := "", returncode := 0 }
        { stdout := "", returncode := 0 }).1 = .failure .notARepository ∧
    SprigError.notARepository.isWrongContext = false := by
  constructor <;> rfl

/-- C8 (amended): for a current directory outside any repository, both
workspace-only commands (`branch status`, `branch clean`) fail with the
`NotARepository` error; for a current directory whose repository root is found
but which is not under a workspace subdirectory of `.workspaces`, both fail
with a `WrongContext` error. -/
theorem workspace_only_commands_context (gitDirs : List AbsPath) (cwd : AbsPath) :
    (find_repo_root gitDirs cwd = none →
      (∀ bp sp, branch_status_cmd gitDirs cwd bp sp = (.failure .notARepository, [])) ∧
      branch_clean_cmd gitDirs cwd = (.failure .notARepository, [])) ∧
    (∀ root, find_repo_root gitDirs cwd = some root →
      detect_workspace cwd root = none →
      SprigError.wrongContextOutsideWorkspace.isWrongContext = true ∧
      (∀ bp sp, branch_status_cmd gitDirs cwd bp sp
          = (.failure .wrongContextOutsideWorkspace, [])) ∧
      branch_clean_cmd gitDirs cwd = (.failure .wrongContextOutsideWorkspace, [])) := by
  constructor
  · intro h
    have he : ensure_workspace_command gitDirs cwd = .error .notARepository := by
      simp [ensure_workspace_command, h]
    refine ⟨fun bp sp => ?_, ?_⟩
    · unfold branch_status_cmd
      rw [he]
    · unfold branch_clean_cmd
      rw [he]
  · intro root h hd
    have he : ensure_workspace_command gitDirs cwd
        = .error .wrongContextOutsideWorkspace := by
      simp [ensure_workspace_command, h, hd]
    refine ⟨rfl, fun bp sp => ?_, ?_⟩
    · unfold branch_status_cmd
      rw [he]
    · unfold branch_clean_cmd
      rw [he]

theorem workspace_only_commands_context_witness :
    branch_clean_cmd [["repo"]] ["repo", "src"]
      = (.failure .wrongContextOutsideWorkspace, []) :=
  ((workspace_only_commands_context [["repo"]] ["repo", "src"]).2 ["repo"] rfl rfl).2.2

/-! Section: Claim about `list` (C9) -/

/-- The names of the workspace subdirectories of `.workspaces` (files are
skipped, as `p.is_dir()` does). -/
def dirNames (fs : RepoFS) : List String :=
  ((fs.workspaces.getD []).filter (fun p => p.2.isDir)).map Prod.fst

/-- C9: run from the root, `list` succeeds without mutating the filesystem;
when the workspaces directory is missing or contains no subdirectories it
prints the single "no workspaces" message, and otherwise it prints the
subdirectory names, each exactly once, one per line, sorted lexicographically
by name. -/
theorem list_cmd_output (gitDirs : List AbsPath) (cwd root : AbsPath) (fs : RepoFS)
    (hroot : ensure_root_command gitDirs cwd = .ok root) (hwf : fs.wf) :
    (list_cmd gitDirs cwd fs).1 = .success ∧
    (list_cmd gitDirs cwd fs).2.2 = fs ∧
    (dirNames fs = [] → (list_cmd gitDirs cwd fs).2.1 = [noWorkspacesMsg]) ∧
    (dirNames fs ≠ [] →
      (list_cmd gitDirs cwd fs).2.1.Sorted (· ≤ ·) ∧
      ∀ n, ((list_cmd gitDirs cwd fs).2.1).count n
          = if n ∈ dirNames fs then 1 else 0) := by
  cases hw : fs.workspaces with
  | none =>
      have heq : list_cmd gitDirs cwd fs = (.success, [noWorkspacesMsg], fs) := by
        unfold list_cmd
        rw [hroot, hw]
      have hdn : dirNames fs = [] := by simp [dirNames, hw]
      exact ⟨by rw [heq], by rw [heq], fun _ => by rw [heq], fun hne => absurd hdn hne⟩
  | some l =>
      have heq : list_cmd gitDirs cwd fs
          = (if ((l.filter (fun p => p.2.isDir)).map Prod.fst).mergeSort.isEmpty
             then (.success, [noWorkspacesMsg], fs)
             else (.success, ((l.filter (fun p => p.2.isDir)).map Prod.fst).mergeSort,
                   fs)) := by
        unfold list_cmd
        rw [hroot, hw]
      have hnames : dirNames fs = (l.filter (fun p => p.2.isDir)).map Prod.fst := by
        simp [dirNames, hw]
      have hnodup : ((l.filter (fun p => p.2.isDir)).map Prod.fst).Nodup := by
        have hfs : (l.map Prod.fst).Nodup := by
          have h := hwf
          unfold RepoFS.wf at h
          rw [hw] at h
          exact h
        exact hfs.sublist ((List.filter_sublist l).map Prod.fst)
      have hperm : List.Perm ((l.filter (fun p => p.2.isDir)).map Prod.fst).mergeSort
          ((l.filter (fun p => p.2.isDir)).map Prod.fst) := List.mergeSort_perm _ _
      by_cases hnil : (l.filter (fun p => p.2.isDir)).map Prod.fst = []
      · have hms : ((l.filter (fun p => p.2.isDir)).map Prod.fst).mergeSort
            = ([] : List String) := by
          rw [hnil]
          exact (List.mergeSort_perm [] _).eq_nil
        have hpos : (((l.filter (fun p => p.2.isDir)).map Prod.fst).mergeSort).isEmpty
            = true := by
          rw [hms]
          rfl
        rw [heq, if_pos hpos]
        exact ⟨rfl, rfl, fun _ => rfl, fun hne => absurd (hnames.trans hnil) hne⟩
      · have hmsne : ((l.filter (fun p => p.2.isDir)).map Prod.fst).mergeSort ≠ [] := by
          intro hcon
          have h2 : List.Perm ((l.filter (fun p => p.2.isDir)).map Prod.fst).mergeSort
              ((l.filter (fun p => p.2.isDir)).map Prod.fst) := List.mergeSort_perm _ _
          rw [hcon] at h2
          exact hnil h2.symm.eq_nil
        have hneg : ¬ ((((l.filter (fun p => p.2.isDir)).map Prod.fst).mergeSort).isEmpty
            = true) := by
          cases hms : ((l.filter (fun p => p.2.isDir)).map Prod.fst).mergeSort with
          | nil => exact absurd hms hmsne
          | cons a t => exact fun hcon => Bool.noConfusion hcon
        rw [heq, if_neg hneg]
        refine ⟨rfl, rfl, fun hz => absurd (hnames.symm.trans hz) hnil, fun hne => ⟨?_, ?_⟩⟩
        · exact List.sorted_mergeSort' _
        · intro n
          rw [hperm.count_eq n, hnames]
          by_cases hmem : n ∈ (l.filter (fun p => p.2.isDir)).map Prod.fst
          · rw [if_pos hmem]
            exact List.count_eq_one_of_mem hnodup hmem
          · rw [if_neg hmem]
            exact List.count_eq_zero_of_not_mem hmem

def listSampleFS : RepoFS :=
  { gitignore := none,
    workspaces := some [("beta", .dir emptyWorkspace), ("alpha", .dir emptyWorkspace),
                        ("stray", .file)] }

theorem list_cmd_output_witness :
    (list_cmd [["repo"]] ["repo"] listSampleFS).1 = .success ∧
    (list_cmd [["repo"]] ["repo"] listSampleFS).2.1.Sorted (· ≤ ·) :=
  ⟨(list_cmd_output [["repo"]] ["repo"] ["repo"] listSampleFS rfl (by decide)).1,
   ((list_cmd_output [["repo"]] ["repo"] ["repo"] listSampleFS rfl (by decide)).2.2.2
      (by decide)).1⟩
